import Mathlib

/-!
Verification development for the Automation-Hub repository.

Pipeline A (`Automation for Remove Followers/Export followers without
following.py`) diffs two Instagram JSON exports and writes a spreadsheet of
accounts followed that do not follow back.

Pipeline B (`Email Sending Automation/Email_Jobs_Sender.py`) reads a
recipient column from a spreadsheet, sends a fixed message to each recipient
through the Gmail API, and rewrites the spreadsheet keeping only rows whose
send failed.

Both scripts are shallowly embedded: file contents are passed as
already-parsed values (`Option` models a missing file or a missing key),
external effects (the Gmail send call, the OAuth refresh and interactive
flows) are parameters, and Python exceptions become `Except` errors.
-/

namespace PipelineA

/-- One record of a `string_list_data` array in the Instagram export.
Each field is optional because the corresponding JSON key may be absent;
the Python code indexes `value` and `href` directly (a missing key raises
`KeyError`) and reads `timestamp` with `.get("timestamp", "N/A")`. -/
structure SLRecord where
  value : Option String
  timestamp : Option Int
  href : Option String
deriving Repr, DecidableEq

/-- One entry of the `relationships_following` array (or of the followers
array): an object holding a `string_list_data` list. -/
structure RelEntry where
  string_list_data : List SLRecord
deriving Repr, DecidableEq

/-- The parsed `following.json` document.  The Python code reads
`following_data.get("relationships_following", [])`, so the key is optional. -/
structure FollowingDoc where
  relationships_following : Option (List RelEntry)
deriving Repr, DecidableEq

/-- The parsed `followers.json` document: a plain list of entries. -/
abbrev FollowersDoc := List RelEntry

/-- The `Followed At` value: either the integer timestamp from the export or
the sentinel `"N/A"` produced by `.get("timestamp", "N/A")`. -/
inductive Timestamp
  | int (t : Int)
  | na
deriving Repr, DecidableEq

/-- Python exceptions that the script can raise. -/
inductive PyError
  | fileNotFound (path : String)
  | keyError (key : String)
  | indexError
deriving Repr, DecidableEq

/-- Models `entry["string_list_data"][0]`: indexing an empty list raises
`IndexError`. -/
def firstSL (e : RelEntry) : Except PyError SLRecord :=
  match e.string_list_data with
  | [] => .error .indexError
  | r :: _ => .ok r

/-- Models `record[key]` on an optional field: a missing key raises
`KeyError`. -/
def getKey {α : Type} (k : String) : Option α → Except PyError α
  | some v => .ok v
  | none => .error (.keyError k)

/-- Models the extraction of one following triple
`(entry["string_list_data"][0]["value"],
  entry["string_list_data"][0].get("timestamp", "N/A"),
  entry["string_list_data"][0]["href"])`. -/
def extractFollowing (e : RelEntry) : Except PyError (String × Timestamp × String) := do
  let r ← firstSL e
  let v ← getKey "value" r.value
  let ts := match r.timestamp with
    | some t => Timestamp.int t
    | none => Timestamp.na
  let h ← getKey "href" r.href
  return (v, ts, h)

/-- Models the extraction `entry["string_list_data"][0]["value"]` of one
follower username. -/
def extractFollower (e : RelEntry) : Except PyError String := do
  let r ← firstSL e
  getKey "value" r.value

/-- The `following` list comprehension: extract all triples from
`following_data.get("relationships_following", [])`; the exception of the
first failing entry propagates. -/
def following (d : FollowingDoc) : Except PyError (List (String × Timestamp × String)) :=
  (d.relationships_following.getD []).mapM extractFollowing

/-- The `followers` list comprehension over the followers document. -/
def followers (d : FollowersDoc) : Except PyError (List String) :=
  d.mapM extractFollower

/-- A row of the output report, as built by the `not_following_back`
comprehension: the dict
`{"Username": username, "Followed At": timestamp, "Profile URL": formula}`. -/
structure GapRow where
  username : String
  followedAt : Timestamp
  profileUrl : String
deriving Repr, DecidableEq

/-- The Excel hyperlink formula f-string
`=HYPERLINK("{url}", "{username}")`. -/
def hyperlink (url username : String) : String :=
  "=HYPERLINK(\"" ++ url ++ "\", \"" ++ username ++ "\")"

/-- Builds one output dict from a following triple. -/
def mkGapRow (t : String × Timestamp × String) : GapRow :=
  { username := t.1
    followedAt := t.2.1
    profileUrl := hyperlink t.2.2 t.1 }

/-- The `not_following_back` comprehension: one row per following triple
whose username is not in the followers list, in input order. -/
def not_following_back (fl : List (String × Timestamp × String))
    (fo : List String) : List GapRow :=
  (fl.filter (fun t => !fo.contains t.1)).map mkGapRow

/-- A cell of the output spreadsheet: either a string or an integer. -/
inductive Cell
  | str (s : String)
  | int (i : Int)
deriving Repr, DecidableEq

/-- The value stored in the `Followed At` column. -/
def tsCell : Timestamp → Cell
  | .int t => .int t
  | .na => .str "N/A"

/-- A pandas `DataFrame`: a list of column labels and a list of rows. -/
structure DataFrame where
  columns : List String
  rows : List (List Cell)
deriving Repr, DecidableEq

/-- The cells of one output row, in dict insertion order. -/
def rowCells (r : GapRow) : List Cell :=
  [.str r.username, tsCell r.followedAt, .str r.profileUrl]

/-- The fixed column labels of a non-empty report. -/
def gapColumns : List String :=
  ["Username", "Followed At", "Profile URL"]

/-- Models `pd.DataFrame(not_following_back)` on the list of uniform
three-key dicts built above: pandas infers the column labels from the keys
of the records, so a non-empty record list yields the three fixed columns
while the empty list yields a frame with no columns at all. -/
def mkDataFrame (rs : List GapRow) : DataFrame :=
  { columns := if rs.isEmpty then [] else gapColumns
    rows := rs.map rowCells }

/-- The filesystem as the script sees it: each input path either holds an
already-parsed document or is absent. -/
structure FS where
  followingFile : Option FollowingDoc
  followersFile : Option FollowersDoc

/-- The fixed path of the following export. -/
def followingPath : String := "followers_and_following/following.json"

/-- The fixed path of the followers export. -/
def followersPath : String := "followers_and_following/followers.json"

/-- Models `load_json_file`: if the path does not exist raise
`FileNotFoundError` carrying the path, otherwise return the parsed document. -/
def load_json_file {α : Type} (path : String) (content : Option α) : Except PyError α :=
  match content with
  | none => .error (.fileNotFound path)
  | some d => .ok d

/-- The whole script, from loading the two files to the DataFrame that is
written to `not_following_back_detailed.xlsx`; any exception propagates and
aborts the run before the write. -/
def runPipelineA (fs : FS) : Except PyError DataFrame := do
  let fd ← load_json_file followingPath fs.followingFile
  let wd ← load_json_file followersPath fs.followersFile
  let fl ← following fd
  let fo ← followers wd
  return mkDataFrame (not_following_back fl fo)

/-- The content of the output file after a run: `df.to_excel` overwrites it
only when the run reaches the write; on an exception the previous content is
untouched. -/
def outputAfterRun (fs : FS) (prev : Option DataFrame) : Option DataFrame :=
  match runPipelineA fs with
  | .ok df => some df
  | .error _ => prev

end PipelineA

namespace PipelineB

/-- One cell of the `Email` column of `Email List.xlsx` as pandas reads it:
`none` models a missing/empty cell (`NaN`), `some s` a cell holding the
string `s`. -/
abbrev Cell := Option String

/-- Models the Python `str.strip()` method: remove leading and trailing
whitespace characters from the string. -/
def strip (s : String) : String :=
  ⟨((s.data.dropWhile Char.isWhitespace).reverse.dropWhile Char.isWhitespace).reverse⟩

/-- Models `df["Email"].dropna().astype(str).str.strip().tolist()`:
`dropna` removes only the `NaN` cells, `astype(str)` is the identity on the
string cells kept here, and `str.strip` trims surrounding whitespace. -/
def emails (cells : List Cell) : List String :=
  (cells.filterMap id).map strip

/-- The accumulated `failed_emails` list: the dispatch loop walks `emails`
in order and appends each address whose send raised; `fails` is the external
outcome of the Gmail send call for an address. -/
def failed_emails (es : List String) (fails : String → Bool) : List String :=
  es.filter fails

/-- Models `remaining_df = df[df["Email"].isin(failed_emails)]`: a row of
the original frame is kept iff its raw (untrimmed) cell value is an element
of `failed_emails`; a `NaN` cell is never in a list of strings, so its row
is dropped. -/
def remaining_df (cells : List Cell) (failed : List String) : List Cell :=
  cells.filter (fun c =>
    match c with
    | some s => failed.contains s
    | none => false)

/-- One whole run of steps 1, 4 and 5 of the script: load the addresses,
collect the failures, rewrite the spreadsheet. -/
def runDispatch (cells : List Cell) (fails : String → Bool) : List Cell :=
  remaining_df cells (failed_emails (emails cells) fails)

/-- The stored OAuth credential as the script tests it: `valid`, `expired`
and the presence of a refresh token. -/
structure Creds where
  valid : Bool
  expired : Bool
  refresh_token : Bool
deriving Repr, DecidableEq

/-- Observable authorization events of the credential block. -/
inductive AuthEvent
  | refreshAttempt
  | interactiveFlow
  | saveToken
deriving Repr, DecidableEq

/-- How the credential block terminates abnormally: `creds.refresh` raised,
or the interactive flow raised. -/
inductive AuthError
  | refreshRaised
  | interactiveRaised
deriving Repr, DecidableEq

/-- The external outcomes of the two network operations: `refreshResult`
is the credential produced by `creds.refresh(Request())` (`none` when the
call raises) and `interactiveResult` the credential produced by
`flow.run_local_server` (`none` when it raises). -/
structure AuthEnv where
  refreshResult : Option Creds
  interactiveResult : Option Creds
deriving Repr, DecidableEq

/-- Models lines 63-78 of the script: `stored` is the credential loaded from
`token.pickle` (`none` when the file is absent).  Returns the events that
happened, in order, and either the final credential or the exception that
terminated the run.  A raise inside the block propagates: there is no
`try`/`except` around `creds.refresh`, so a failed refresh does not fall
through to the interactive flow. -/
def getCreds (stored : Option Creds) (env : AuthEnv) :
    List AuthEvent × Except AuthError Creds :=
  match stored with
  | some c =>
    if c.valid then ([], .ok c)
    else if c.expired && c.refresh_token then
      match env.refreshResult with
      | some c2 => ([.refreshAttempt, .saveToken], .ok c2)
      | none => ([.refreshAttempt], .error .refreshRaised)
    else
      match env.interactiveResult with
      | some c2 => ([.interactiveFlow, .saveToken], .ok c2)
      | none => ([.interactiveFlow], .error .interactiveRaised)
  | none =>
    match env.interactiveResult with
    | some c2 => ([.interactiveFlow, .saveToken], .ok c2)
    | none => ([.interactiveFlow], .error .interactiveRaised)

end PipelineB

/-! ## Theorems about Pipeline A -/

/-- Membership in the gap list: a row is in `not_following_back fl fo` iff it
is built from a following triple whose username is not among the followers. -/
theorem mem_not_following_back (fl : List (String × PipelineA.Timestamp × String))
    (fo : List String) (r : PipelineA.GapRow) :
    r ∈ PipelineA.not_following_back fl fo
      ↔ ∃ t, t ∈ fl ∧ t.1 ∉ fo ∧ PipelineA.mkGapRow t = r := by
  simp [PipelineA.not_following_back, and_assoc]

/-- C1: the gap output contains a row for a following entry `e` if and only
if the username of `e` does not occur among the follower usernames, and no
emitted row carries a username present in the followers data. -/
theorem gap_row_iff_not_followed (fl : List (String × PipelineA.Timestamp × String))
    (fo : List String) (e : String × PipelineA.Timestamp × String) (he : e ∈ fl) :
    ((∃ r ∈ PipelineA.not_following_back fl fo, r.username = e.1) ↔ e.1 ∉ fo)
    ∧ ∀ r ∈ PipelineA.not_following_back fl fo, r.username ∉ fo := by
  constructor
  · constructor
    · rintro ⟨r, hr, hname⟩
      rcases (mem_not_following_back fl fo r).1 hr with ⟨t, _, hnot, hmk⟩
      have hu : r.username = t.1 := by rw [← hmk]; rfl
      rw [← hname, hu]
      exact hnot
    · intro hnot
      exact ⟨PipelineA.mkGapRow e,
        (mem_not_following_back fl fo _).2 ⟨e, he, hnot, rfl⟩, rfl⟩
  · intro r hr
    rcases (mem_not_following_back fl fo r).1 hr with ⟨t, _, hnot, hmk⟩
    have hu : r.username = t.1 := by rw [← hmk]; rfl
    rw [hu]
    exact hnot

/-- Witness for C1: with following entries `a` and `b` and the single
follower `b`, a gap row with username `a` is emitted. -/
theorem gap_row_iff_not_followed_witness :
    ∃ r ∈ PipelineA.not_following_back
        [("a", PipelineA.Timestamp.int 100, "u/a"), ("b", PipelineA.Timestamp.na, "u/b")]
        ["b"], r.username = "a" :=
  (gap_row_iff_not_followed
      [("a", PipelineA.Timestamp.int 100, "u/a"), ("b", PipelineA.Timestamp.na, "u/b")]
      ["b"] ("a", PipelineA.Timestamp.int 100, "u/a") (by decide)).1.mpr (by decide)

/-- C5: gap computation is order-preserving: the emitted rows form a
subsequence of the row images of the following input, and the emitted
usernames form a subsequence of the input usernames — no re-sorting. -/
theorem not_following_back_order_preserving
    (fl : List (String × PipelineA.Timestamp × String)) (fo : List String) :
    List.Sublist (PipelineA.not_following_back fl fo) (fl.map PipelineA.mkGapRow)
    ∧ List.Sublist ((PipelineA.not_following_back fl fo).map PipelineA.GapRow.username)
        (fl.map (fun t => t.1)) := by
  constructor
  · exact (List.filter_sublist fl).map PipelineA.mkGapRow
  · have e : (PipelineA.not_following_back fl fo).map PipelineA.GapRow.username
        = (fl.filter (fun t => !fo.contains t.1)).map
            (fun t : String × PipelineA.Timestamp × String => t.1) := by
      rw [PipelineA.not_following_back, List.map_map]
      rfl
    rw [e]
    exact (List.filter_sublist fl).map _

/-- Extraction of the shape of a successful run: the written frame is always
`mkDataFrame` of some gap-row list. -/
theorem runPipelineA_ok_shape (fs : PipelineA.FS) (df : PipelineA.DataFrame)
    (h : PipelineA.runPipelineA fs = .ok df) :
    ∃ rs, df = PipelineA.mkDataFrame rs := by
  rcases fs with ⟨ff, wf⟩
  cases ff with
  | none =>
    simp [PipelineA.runPipelineA, PipelineA.load_json_file, bind, Except.bind] at h
  | some fd =>
    cases wf with
    | none =>
      simp [PipelineA.runPipelineA, PipelineA.load_json_file, bind, Except.bind] at h
    | some wd =>
      simp only [PipelineA.runPipelineA, PipelineA.load_json_file, bind, Except.bind] at h
      cases hf : PipelineA.following fd with
      | error e => simp [hf] at h
      | ok fl =>
        cases hw : PipelineA.followers wd with
        | error e => simp [hf, hw] at h
        | ok fo =>
          simp only [hf, hw, pure, Except.pure, Except.ok.injEq] at h
          exact ⟨_, h.symm⟩

/-- C7 (amended): an empty gap sequence yields a written frame with no
columns at all (a fully empty table), not a header-only frame; a non-empty
gap sequence yields the three fixed columns in order. -/
theorem report_columns (fs : PipelineA.FS) (df : PipelineA.DataFrame)
    (h : PipelineA.runPipelineA fs = .ok df) :
    (df.rows = [] → df.columns = [])
    ∧ (df.rows ≠ [] → df.columns = PipelineA.gapColumns) := by
  rcases runPipelineA_ok_shape fs df h with ⟨rs, rfl⟩
  cases rs <;> simp [PipelineA.mkDataFrame]

/-- Witness for C7 (amended): the run on two well-formed empty exports
writes the frame with no columns and no rows. -/
theorem report_columns_witness :
    ((PipelineA.DataFrame.mk [] []).rows = [] → (PipelineA.DataFrame.mk [] []).columns = [])
    ∧ ((PipelineA.DataFrame.mk [] []).rows ≠ []
        → (PipelineA.DataFrame.mk [] []).columns = PipelineA.gapColumns) :=
  report_columns
    { followingFile := some { relationships_following := some [] }, followersFile := some [] }
    (PipelineA.DataFrame.mk [] []) rfl

/-- C7 counterexample: on empty inputs the run writes a frame whose column
list is empty, not the fixed header `Username`, `Followed At`, `Profile URL`
that the claim asserts for the empty gap sequence. -/
theorem empty_report_has_no_columns :
    PipelineA.runPipelineA
        { followingFile := some { relationships_following := some [] },
          followersFile := some [] }
      = .ok { columns := [], rows := [] }
    ∧ ([] : List String) ≠ PipelineA.gapColumns := by
  exact ⟨rfl, by decide⟩

/-- C8: when either input file is missing, the run terminates with a
FileNotFound error carrying the missing path, and the output file keeps its
previous content because the write is never reached. -/
theorem missing_input_file_aborts (fs : PipelineA.FS) (prev : Option PipelineA.DataFrame)
    (h : fs.followingFile = none ∨ fs.followersFile = none) :
    (∃ p, ((p = PipelineA.followingPath ∧ fs.followingFile = none)
            ∨ (p = PipelineA.followersPath ∧ fs.followersFile = none))
        ∧ PipelineA.runPipelineA fs = .error (.fileNotFound p))
    ∧ PipelineA.outputAfterRun fs prev = prev := by
  rcases fs with ⟨ff, wf⟩
  have hrun : ∃ p, ((p = PipelineA.followingPath ∧ ff = none)
        ∨ (p = PipelineA.followersPath ∧ wf = none))
      ∧ PipelineA.runPipelineA ⟨ff, wf⟩ = .error (.fileNotFound p) := by
    cases ff with
    | none =>
      exact ⟨PipelineA.followingPath, Or.inl ⟨rfl, rfl⟩, rfl⟩
    | some fd =>
      cases wf with
      | none =>
        refine ⟨PipelineA.followersPath, Or.inr ⟨rfl, rfl⟩, ?_⟩
        simp [PipelineA.runPipelineA, PipelineA.load_json_file, bind, Except.bind]
      | some wd =>
        rcases h with h | h <;> simp at h
  refine ⟨hrun, ?_⟩
  rcases hrun with ⟨p, _, hp⟩
  simp [PipelineA.outputAfterRun, hp]

/-- Witness for C8: with the following export missing, the run fails with
the FileNotFound error for the following path and the previous output
content is untouched. -/
theorem missing_input_file_aborts_witness :
    (∃ p, ((p = PipelineA.followingPath
            ∧ (PipelineA.FS.mk none (some [])).followingFile = none)
            ∨ (p = PipelineA.followersPath
            ∧ (PipelineA.FS.mk none (some [])).followersFile = none))
        ∧ PipelineA.runPipelineA (PipelineA.FS.mk none (some []))
            = .error (.fileNotFound p))
    ∧ PipelineA.outputAfterRun (PipelineA.FS.mk none (some [])) none = none :=
  missing_input_file_aborts (PipelineA.FS.mk none (some [])) none (Or.inl rfl)

/-- C9: an entry whose first string-list record has `value` and `href` but
no `timestamp` key extracts successfully with the sentinel `N/A` — no
exception is raised. -/
theorem missing_timestamp_defaults_na (r : PipelineA.SLRecord)
    (rest : List PipelineA.SLRecord) (v href : String)
    (hv : r.value = some v) (hh : r.href = some href) (ht : r.timestamp = none) :
    PipelineA.extractFollowing { string_list_data := r :: rest }
      = .ok (v, PipelineA.Timestamp.na, href) := by
  simp [PipelineA.extractFollowing, PipelineA.firstSL, PipelineA.getKey,
    hv, hh, ht, bind, Except.bind, pure, Except.pure]

/-- Witness for C9: concrete record with a missing timestamp extracts to the
sentinel. -/
theorem missing_timestamp_defaults_na_witness :
    PipelineA.extractFollowing
        { string_list_data := [{ value := some "a", timestamp := none, href := some "u/a" }] }
      = .ok ("a", PipelineA.Timestamp.na, "u/a") :=
  missing_timestamp_defaults_na
    { value := some "a", timestamp := none, href := some "u/a" } [] "a" "u/a" rfl rfl rfl

/-- C10: when the following document lacks the `relationships_following`
key entirely, the run raises no schema error: the following list is treated
as empty and the written report is the empty frame. -/
theorem missing_relationships_key_empty_report (fd : PipelineA.FollowingDoc)
    (wd : PipelineA.FollowersDoc) (fo : List String)
    (hk : fd.relationships_following = none) (hw : PipelineA.followers wd = .ok fo) :
    PipelineA.runPipelineA { followingFile := some fd, followersFile := some wd }
      = .ok { columns := [], rows := [] } := by
  simp [PipelineA.runPipelineA, PipelineA.load_json_file, PipelineA.following, hk, hw,
    PipelineA.mkDataFrame, PipelineA.not_following_back, List.mapM.loop,
    bind, Except.bind, pure, Except.pure]

/-- Witness for C10: a following document that is an empty object and an
empty followers document produce the empty report without error. -/
theorem missing_relationships_key_empty_report_witness :
    PipelineA.runPipelineA
        { followingFile := some { relationships_following := none }, followersFile := some [] }
      = .ok { columns := [], rows := [] } :=
  missing_relationships_key_empty_report
    { relationships_following := none } [] [] rfl rfl

/-! ## Theorems about Pipeline B -/

/-- C2: evaluation at the failing input.  The single cell holds
` x@y.com ` with surrounding spaces; the send to the trimmed address
`x@y.com` fails, so `x@y.com` is the accumulated failure, yet the rewritten
spreadsheet is empty: the `isin` filter compares the raw untrimmed cell
against the trimmed failed address and drops the row of the failed
recipient. -/
theorem failed_recipient_row_dropped :
    PipelineB.emails [some " x@y.com "] = ["x@y.com"]
    ∧ PipelineB.failed_emails (PipelineB.emails [some " x@y.com "]) (fun _ => true)
        = ["x@y.com"]
    ∧ PipelineB.runDispatch [some " x@y.com "] (fun _ => true) = [] := by
  decide

/-- C3 counterexample: a cell containing only whitespace is not dropped —
`dropna` removes only missing cells, so the whitespace-only cell survives
and is retained as the empty string after trimming, contradicting the claim
that such cells are dropped. -/
theorem whitespace_only_cell_retained :
    PipelineB.emails [some " "] = [""] ∧ PipelineB.emails [some " "] ≠ [] := by
  decide

/-- C3 (amended): recipient loading drops the missing (empty/NaN) cells and
keeps every string cell as its whitespace-trimmed value, in order; a cell
containing only whitespace is kept as the empty string rather than dropped. -/
theorem emails_trim_and_drop (cells : List PipelineB.Cell) (s : String) :
    PipelineB.emails (none :: cells) = PipelineB.emails cells
    ∧ PipelineB.emails (some s :: cells) = PipelineB.strip s :: PipelineB.emails cells
    ∧ (some s ∈ cells → PipelineB.strip s ∈ PipelineB.emails cells) := by
  refine ⟨rfl, rfl, fun hs => ?_⟩
  exact List.mem_map.mpr ⟨s, List.mem_filterMap.mpr ⟨some s, hs, rfl⟩, rfl⟩

/-- Witness for C3 (amended): the trimmed value of a padded cell occurs in
the loaded list. -/
theorem emails_trim_and_drop_witness :
    PipelineB.strip " a " ∈ PipelineB.emails [some " a "] :=
  (emails_trim_and_drop [some " a "] " a ").2.2 (by decide)

/-- C4 counterexample: with the single whitespace-padded cell ` a@b ` and
every send failing, the rewritten spreadsheet is empty instead of equal to
the pre-run recipient list `["a@b"]`. -/
theorem all_fail_whitespace_loses_rows :
    PipelineB.emails [some " a@b "] = ["a@b"]
    ∧ PipelineB.runDispatch [some " a@b "] (fun _ => true) = []
    ∧ PipelineB.runDispatch [some " a@b "] (fun _ => true)
        ≠ (PipelineB.emails [some " a@b "]).map some := by
  decide

/-- Helper: when every string cell of the frame is in the failed list, the
`isin` filter keeps exactly the non-missing cells, in order. -/
theorem remaining_df_all_kept (cells : List PipelineB.Cell) (failed : List String)
    (h : ∀ s : String, some s ∈ cells → failed.contains s = true) :
    PipelineB.remaining_df cells failed = (cells.filterMap id).map some := by
  induction cells with
  | nil => rfl
  | cons c t ih =>
    have ht : ∀ s : String, some s ∈ t → failed.contains s = true :=
      fun s hs => h s (List.mem_cons_of_mem _ hs)
    cases c with
    | none => exact ih ht
    | some s =>
      have hc : failed.contains s = true := h s (List.mem_cons_self _ _)
      simp only [PipelineB.remaining_df, List.filter_cons, hc, List.filterMap_cons,
        id, List.map_cons] at ih ⊢
      exact congrArg (some s :: ·) (ih ht)

/-- C4 (amended): if every send fails and every cell already equals its
trimmed value, the rewritten spreadsheet equals the pre-run recipient list —
same membership, same order, duplicates preserved. -/
theorem all_fail_preserves_list (cells : List PipelineB.Cell) (fails : String → Bool)
    (htrim : ∀ s : String, some s ∈ cells → PipelineB.strip s = s)
    (hfail : ∀ e, fails e = true) :
    PipelineB.runDispatch cells fails = (PipelineB.emails cells).map some := by
  have h2 : PipelineB.emails cells = cells.filterMap id := by
    have hall : ∀ s ∈ cells.filterMap id, PipelineB.strip s = s := by
      intro s hs
      rcases List.mem_filterMap.mp hs with ⟨c, hc, hcs⟩
      cases c with
      | none => cases hcs
      | some x =>
        cases hcs
        exact htrim s hc
    calc (cells.filterMap id).map PipelineB.strip
        = (cells.filterMap id).map id := List.map_congr_left hall
      _ = cells.filterMap id := List.map_id _
  have h1 : PipelineB.failed_emails (PipelineB.emails cells) fails
      = PipelineB.emails cells :=
    List.filter_eq_self.mpr (fun a _ => hfail a)
  have hmem : ∀ s : String, some s ∈ cells
      → (PipelineB.emails cells).contains s = true := by
    intro s hs
    have : s ∈ cells.filterMap id := List.mem_filterMap.mpr ⟨some s, hs, rfl⟩
    exact List.elem_eq_true_of_mem (h2 ▸ this)
  show PipelineB.remaining_df cells
      (PipelineB.failed_emails (PipelineB.emails cells) fails)
    = (PipelineB.emails cells).map some
  rw [h1, remaining_df_all_kept cells (PipelineB.emails cells) hmem, h2]

/-- Witness for C4 (amended): trimmed cells with a duplicate and a missing
cell, all sends failing: the rewritten spreadsheet is the recipient list
with order and duplicates preserved. -/
theorem all_fail_preserves_list_witness :
    PipelineB.runDispatch [some "a@b", none, some "a@b"] (fun _ => true)
      = (PipelineB.emails [some "a@b", none, some "a@b"]).map some :=
  all_fail_preserves_list [some "a@b", none, some "a@b"] (fun _ => true)
    (by intro s hs; simp at hs; subst hs; decide)
    (fun _ => rfl)

/-- C6 counterexample: a stale stored token (present, not valid, expired,
with a refresh token) whose silent refresh raises, while the interactive
flow would succeed: the run terminates with the refresh error and the
interactive flow is never entered — there is no fallback. -/
theorem stale_refresh_failure_terminates :
    PipelineB.getCreds
        (some { valid := false, expired := true, refresh_token := true })
        { refreshResult := none,
          interactiveResult := some { valid := true, expired := false, refresh_token := true } }
      = ([PipelineB.AuthEvent.refreshAttempt], .error PipelineB.AuthError.refreshRaised)
    ∧ PipelineB.AuthEvent.interactiveFlow ∉
        (PipelineB.getCreds
          (some { valid := false, expired := true, refresh_token := true })
          { refreshResult := none,
            interactiveResult := some { valid := true, expired := false, refresh_token := true } }).1 :=
  ⟨rfl, by decide⟩

/-- C6 (amended): in the TokenStale state a silent refresh is attempted; on
success the refreshed credential is adopted and the token saved; if the
refresh raises, the error propagates and the run terminates without running
the interactive authorization flow. -/
theorem stale_token_refresh (c : PipelineB.Creds) (env : PipelineB.AuthEnv)
    (hv : c.valid = false) (he : c.expired = true) (hr : c.refresh_token = true) :
    PipelineB.AuthEvent.refreshAttempt ∈ (PipelineB.getCreds (some c) env).1
    ∧ (env.refreshResult = none →
        PipelineB.getCreds (some c) env
          = ([PipelineB.AuthEvent.refreshAttempt], .error PipelineB.AuthError.refreshRaised))
    ∧ (∀ c2, env.refreshResult = some c2 →
        PipelineB.getCreds (some c) env
          = ([PipelineB.AuthEvent.refreshAttempt, PipelineB.AuthEvent.saveToken], .ok c2)) := by
  cases h : env.refreshResult <;>
    simp [PipelineB.getCreds, hv, he, hr, h]

/-- Witness for C6 (amended): concrete stale credential whose refresh
succeeds: the refreshed credential is adopted and saved. -/
theorem stale_token_refresh_witness :
    PipelineB.getCreds (some { valid := false, expired := true, refresh_token := true })
        { refreshResult := some { valid := true, expired := false, refresh_token := true },
          interactiveResult := none }
      = ([PipelineB.AuthEvent.refreshAttempt, PipelineB.AuthEvent.saveToken],
          .ok { valid := true, expired := false, refresh_token := true }) :=
  (stale_token_refresh
      { valid := false, expired := true, refresh_token := true }
      { refreshResult := some { valid := true, expired := false, refresh_token := true },
        interactiveResult := none }
      rfl rfl rfl).2.2
    { valid := true, expired := false, refresh_token := true } rfl
